import Mathlib

/-!
Verification development for the smlb demonstration-notebook repository.

The repository consists of Jupyter notebooks that call into the external
smlb library.  We embed, faithfully to the notebook sources:

* the constructor call sites (which keyword arguments each construction of
  a workflow, learner, sampler or dataset supplies, and whether run() is
  invoked) as transcription records;
* the helper functions that the notebooks define themselves
  (the stats helper of the band-gaps notebook and the calc_split_sizes
  helper of the learning-curve panel notebook);
* for behaviour the spec attributes to the external library (overlap
  detection in LearningCurveRegression.run, the auxiliary result of
  LearningCurvePlot, the dataset interface), models built from the
  spec text, each marked `Modelled from the spec:` in its doc comment.
-/

namespace Smlb

/-! ## Transcription of constructor call sites in the notebooks -/

/-- A construction of the LearningCurveRegression workflow in a notebook:
which keyword arguments the call supplies, and whether the constructed
workflow's run() method is subsequently invoked. -/
structure WorkflowCall where
  notebook : String
  kwargs : List String
  runInvoked : Bool
deriving DecidableEq, Repr

/-- First workflow construction in mini_demo_learning_curve_friedman1979:
LearningCurveRegression(data=dataset, training=training_sets,
validation=validation_set, learners=[learner_rf_skl, learner_gpr_skl]),
followed by workflow.run(). -/
def friedmanWorkflowCall1 : WorkflowCall :=
  { notebook := "mini_demo_learning_curve_friedman1979"
    kwargs := ["data", "training", "validation", "learners"]
    runInvoked := true }

/-- Second workflow construction in mini_demo_learning_curve_friedman1979:
LearningCurveRegression(data=dataset, training=training_sets,
validation=validation_set, learners=[learner_rf_skl, learner_gpr_skl],
evaluations=[learning_curve,]), followed by workflow.run(). -/
def friedmanWorkflowCall2 : WorkflowCall :=
  { notebook := "mini_demo_learning_curve_friedman1979"
    kwargs := ["data", "training", "validation", "learners", "evaluations"]
    runInvoked := true }

/-- Workflow construction in mini_demo_learning_curve_panel (inside the
row/col loop): LearningCurveRegression(data=..., features=..., training=...,
validation=..., learners=learners, evaluations=[plots[row][col]]),
followed by wf.run(). -/
def panelWorkflowCall : WorkflowCall :=
  { notebook := "mini_demo_learning_curve_panel"
    kwargs := ["data", "features", "training", "validation", "learners", "evaluations"]
    runInvoked := true }

/-- Workflow construction in mini_demo_watercolor_pigments2019:
LearningCurveRegression(data=dataset, features=features, training=training,
validation=validation, learners=[...], evaluations=[learning_curve]),
followed by workflow.run(). -/
def watercolorWorkflowCall : WorkflowCall :=
  { notebook := "mini_demo_watercolor_pigments2019"
    kwargs := ["data", "features", "training", "validation", "learners", "evaluations"]
    runInvoked := true }

/-- All constructions of LearningCurveRegression in the notebooks. -/
def lcrConstructions : List WorkflowCall :=
  [friedmanWorkflowCall1, friedmanWorkflowCall2, panelWorkflowCall, watercolorWorkflowCall]

/-- A learner construction in a notebook: the class called, the keyword
arguments supplied, and whether the instance is passed to a workflow
(which fits it and uses it to predict). -/
structure LearnerCall where
  notebook : String
  callee : String
  kwargs : List String
  usedInWorkflow : Bool
deriving DecidableEq, Repr

/-- GaussianProcessRegressionSklearn(random_state=0) in
mini_demo_learning_curve_friedman1979. -/
def friedmanLearnerGpr : LearnerCall :=
  { notebook := "mini_demo_learning_curve_friedman1979"
    callee := "GaussianProcessRegressionSklearn"
    kwargs := ["random_state"]
    usedInWorkflow := true }

/-- RandomForestRegressionSklearn(random_state=0) in
mini_demo_learning_curve_friedman1979. -/
def friedmanLearnerRf : LearnerCall :=
  { notebook := "mini_demo_learning_curve_friedman1979"
    callee := "RandomForestRegressionSklearn"
    kwargs := ["random_state"]
    usedInWorkflow := true }

/-- RandomForestRegressionSklearn(random_state=seeds.pop()) in
mini_demo_learning_curve_panel. -/
def panelLearnerRf : LearnerCall :=
  { notebook := "mini_demo_learning_curve_panel"
    callee := "RandomForestRegressionSklearn"
    kwargs := ["random_state"]
    usedInWorkflow := true }

/-- ExtremelyRandomizedTreesRegressionSklearn(random_state=seeds.pop()) in
mini_demo_learning_curve_panel. -/
def panelLearnerErt : LearnerCall :=
  { notebook := "mini_demo_learning_curve_panel"
    callee := "ExtremelyRandomizedTreesRegressionSklearn"
    kwargs := ["random_state"]
    usedInWorkflow := true }

/-- GradientBoostedTreesRegressionSklearn(random_state=seeds.pop()) in
mini_demo_learning_curve_panel. -/
def panelLearnerGbt : LearnerCall :=
  { notebook := "mini_demo_learning_curve_panel"
    callee := "GradientBoostedTreesRegressionSklearn"
    kwargs := ["random_state"]
    usedInWorkflow := true }

/-- RandomForestRegressionLolo() in mini_demo_learning_curve_panel,
constructed with no arguments at all; the source comment reads
"currently no support for passing prng seed". -/
def panelLearnerLolo : LearnerCall :=
  { notebook := "mini_demo_learning_curve_panel"
    callee := "RandomForestRegressionLolo"
    kwargs := []
    usedInWorkflow := true }

/-- GaussianProcessRegressionSklearn(kernel=kernel, random_state=0) in
mini_demo_watercolor_pigments2019. -/
def watercolorLearnerGpr : LearnerCall :=
  { notebook := "mini_demo_watercolor_pigments2019"
    callee := "GaussianProcessRegressionSklearn"
    kwargs := ["kernel", "random_state"]
    usedInWorkflow := true }

/-- RandomForestRegressionSklearn(random_state=0) in
mini_demo_watercolor_pigments2019. -/
def watercolorLearnerRf : LearnerCall :=
  { notebook := "mini_demo_watercolor_pigments2019"
    callee := "RandomForestRegressionSklearn"
    kwargs := ["random_state"]
    usedInWorkflow := true }

/-- ExtremelyRandomizedTreesRegressionSklearn(random_state=0,
uncertainties='naive') in mini_demo_watercolor_pigments2019. -/
def watercolorLearnerErt : LearnerCall :=
  { notebook := "mini_demo_watercolor_pigments2019"
    callee := "ExtremelyRandomizedTreesRegressionSklearn"
    kwargs := ["random_state", "uncertainties"]
    usedInWorkflow := true }

/-- All learner constructions in the notebooks. -/
def learnerConstructions : List LearnerCall :=
  [friedmanLearnerGpr, friedmanLearnerRf,
   panelLearnerRf, panelLearnerErt, panelLearnerGbt, panelLearnerLolo,
   watercolorLearnerGpr, watercolorLearnerRf, watercolorLearnerErt]

/-- A sampler construction in a notebook: the class called, the keyword
arguments supplied, and the role in which the instance is used (passed as
the training samplers or as the validation sampler of a workflow). -/
structure SamplerCall where
  notebook : String
  callee : String
  kwargs : List String
  role : String
deriving DecidableEq, Repr

/-- smlb.GridSampler(size=7**5, domain=[0,1], rng=0), the validation set
sampler of mini_demo_learning_curve_friedman1979. -/
def friedmanSamplerGridValidation : SamplerCall :=
  { notebook := "mini_demo_learning_curve_friedman1979"
    callee := "GridSampler"
    kwargs := ["size", "domain", "rng"]
    role := "validation" }

/-- smlb.GridSampler(size=size, domain=[0,1], rng=0) for the training
sizes of mini_demo_learning_curve_friedman1979 (first workflow). -/
def friedmanSamplerGridTraining : SamplerCall :=
  { notebook := "mini_demo_learning_curve_friedman1979"
    callee := "GridSampler"
    kwargs := ["size", "domain", "rng"]
    role := "training" }

/-- smlb.RandomVectorSampler(size=size, rng=0) for the training sizes of
mini_demo_learning_curve_friedman1979 (second workflow). -/
def friedmanSamplerVectorTraining : SamplerCall :=
  { notebook := "mini_demo_learning_curve_friedman1979"
    callee := "RandomVectorSampler"
    kwargs := ["size", "rng"]
    role := "training" }

/-- smlb.RandomSubsetSampler(size=m, rng=seeds.pop()) for the finite
datasets' validation sets in mini_demo_learning_curve_panel. -/
def panelSamplerSubsetValidation : SamplerCall :=
  { notebook := "mini_demo_learning_curve_panel"
    callee := "RandomSubsetSampler"
    kwargs := ["size", "rng"]
    role := "validation" }

/-- smlb.RandomVectorSampler(size=m, rng=seeds.pop()) for the synthetic
datasets' validation sets in mini_demo_learning_curve_panel. -/
def panelSamplerVectorValidation : SamplerCall :=
  { notebook := "mini_demo_learning_curve_panel"
    callee := "RandomVectorSampler"
    kwargs := ["size", "rng"]
    role := "validation" }

/-- smlb.RandomSubsetSampler(size=n, rng=seeds.pop()) for the finite
datasets' training sets in mini_demo_learning_curve_panel. -/
def panelSamplerSubsetTraining : SamplerCall :=
  { notebook := "mini_demo_learning_curve_panel"
    callee := "RandomSubsetSampler"
    kwargs := ["size", "rng"]
    role := "training" }

/-- smlb.RandomVectorSampler(size=n, rng=seeds.pop()) for the synthetic
datasets' training sets in mini_demo_learning_curve_panel. -/
def panelSamplerVectorTraining : SamplerCall :=
  { notebook := "mini_demo_learning_curve_panel"
    callee := "RandomVectorSampler"
    kwargs := ["size", "rng"]
    role := "training" }

/-- smlb.RandomSubsetSampler(size=m, rng=0), the validation sampler of
mini_demo_watercolor_pigments2019. -/
def watercolorSamplerValidation : SamplerCall :=
  { notebook := "mini_demo_watercolor_pigments2019"
    callee := "RandomSubsetSampler"
    kwargs := ["size", "rng"]
    role := "validation" }

/-- smlb.RandomSubsetSampler(size=n, rng=0) for the training sizes of
mini_demo_watercolor_pigments2019. -/
def watercolorSamplerTraining : SamplerCall :=
  { notebook := "mini_demo_watercolor_pigments2019"
    callee := "RandomSubsetSampler"
    kwargs := ["size", "rng"]
    role := "training" }

/-- All sampler constructions in the notebooks. -/
def samplerConstructions : List SamplerCall :=
  [friedmanSamplerGridValidation, friedmanSamplerGridTraining,
   friedmanSamplerVectorTraining,
   panelSamplerSubsetValidation, panelSamplerVectorValidation,
   panelSamplerSubsetTraining, panelSamplerVectorTraining,
   watercolorSamplerValidation, watercolorSamplerTraining]

/-- A dataset construction in a notebook: the class called and the keyword
arguments supplied. -/
structure DatasetCall where
  notebook : String
  callee : String
  kwargs : List String
deriving DecidableEq, Repr

/-- BandGapsStrehlowCook1973Dataset(filter_='bg') in the band-gaps
notebook (the unnamed source file). -/
def bandGapsDatasetCall : DatasetCall :=
  { notebook := "band_gaps"
    callee := "BandGapsStrehlowCook1973Dataset"
    kwargs := ["filter_"] }

/-- Friedman1979Data(dimensions=5) in
mini_demo_learning_curve_friedman1979. -/
def friedmanDatasetCall : DatasetCall :=
  { notebook := "mini_demo_learning_curve_friedman1979"
    callee := "Friedman1979Data"
    kwargs := ["dimensions"] }

/-- BandGapsStrehlowCook1973Dataset(filter_='bg', join=1, samplef=...,
labelf=np.median) in mini_demo_learning_curve_panel. -/
def panelBandGapsDatasetCall : DatasetCall :=
  { notebook := "mini_demo_learning_curve_panel"
    callee := "BandGapsStrehlowCook1973Dataset"
    kwargs := ["filter_", "join", "samplef", "labelf"] }

/-- SuperconductorsCitrine2016Dataset(process=True, join=True, filter_=...,
samplef=..., labelf=...) in mini_demo_learning_curve_panel. -/
def panelSuperconductorsDatasetCall : DatasetCall :=
  { notebook := "mini_demo_learning_curve_panel"
    callee := "SuperconductorsCitrine2016Dataset"
    kwargs := ["process", "join", "filter_", "samplef", "labelf"] }

/-- CleanEnergyProjectDataset(source=cep_filename, join=True, samplef=...,
labelf=...) in mini_demo_learning_curve_panel. -/
def panelCleanEnergyDatasetCall : DatasetCall :=
  { notebook := "mini_demo_learning_curve_panel"
    callee := "CleanEnergyProjectDataset"
    kwargs := ["source", "join", "samplef", "labelf"] }

/-- Friedman1979Data(dimensions=6) in mini_demo_learning_curve_panel. -/
def panelFriedman1979DatasetCall : DatasetCall :=
  { notebook := "mini_demo_learning_curve_panel"
    callee := "Friedman1979Data"
    kwargs := ["dimensions"] }

/-- FriedmanSilverman1989Data(dimensions=10) in
mini_demo_learning_curve_panel. -/
def panelFriedmanSilvermanDatasetCall : DatasetCall :=
  { notebook := "mini_demo_learning_curve_panel"
    callee := "FriedmanSilverman1989Data"
    kwargs := ["dimensions"] }

/-- Schwefel261981Data(dimensions=15) in mini_demo_learning_curve_panel. -/
def panelSchwefelDatasetCall : DatasetCall :=
  { notebook := "mini_demo_learning_curve_panel"
    callee := "Schwefel261981Data"
    kwargs := ["dimensions"] }

/-- WatercolorPigments2019Dataset(filter_="primary") in
mini_demo_watercolor_pigments2019. -/
def watercolorPrimaryDatasetCall : DatasetCall :=
  { notebook := "mini_demo_watercolor_pigments2019"
    callee := "WatercolorPigments2019Dataset"
    kwargs := ["filter_"] }

/-- WatercolorPigments2019Dataset(labelf=lambda arg: arg[0]) in
mini_demo_watercolor_pigments2019. -/
def watercolorMixturesDatasetCall : DatasetCall :=
  { notebook := "mini_demo_watercolor_pigments2019"
    callee := "WatercolorPigments2019Dataset"
    kwargs := ["labelf"] }

/-- All dataset constructions in the notebooks. -/
def datasetConstructions : List DatasetCall :=
  [bandGapsDatasetCall, friedmanDatasetCall,
   panelBandGapsDatasetCall, panelSuperconductorsDatasetCall,
   panelCleanEnergyDatasetCall, panelFriedman1979DatasetCall,
   panelFriedmanSilvermanDatasetCall, panelSchwefelDatasetCall,
   watercolorPrimaryDatasetCall, watercolorMixturesDatasetCall]

/-! ## The stats helper of the band-gaps notebook

The band-gaps notebook defines a helper

    def stats(ds):
        CRYSTALLINITY_NONE = BandGapsStrehlowCook1973Dataset.CRYSTALLINITY_NONE
        data = ds.samples('all')
        n = len(bg1.samples('all'))
        ntp = len([e for e in data if e['temperature'] is not None])
        ncr = len([e for e in data if e['crystallinity'] != CRYSTALLINITY_NONE])
        ntc = len([e for e in data if (e['temperature'] is not None)
                   and (e['crystallinity'] is not CRYSTALLINITY_NONE)])
        ...

Note that n is computed from the global bg1, not from the argument ds, and
that the crystallinity test uses Python object identity (is not) for ntc
but value equality (!=) for ncr.  To capture the identity/equality
distinction, a Python value is modelled as a pair of an object id and a
value: `is` compares ids, `==` compares values.  For temperature the test
is against None, for which identity and equality coincide, so we model
temperature as an Option. -/

/-- A Python object as seen by the crystallinity tests: `oid` is the
object identity (what `is` compares), `val` the value (what `==`/`!=`
compare).  Two objects may be equal in value yet not identical. -/
structure PyValue where
  oid : ℕ
  val : ℕ
deriving DecidableEq, Repr

/-- The sentinel BandGapsStrehlowCook1973Dataset.CRYSTALLINITY_NONE. -/
def CRYSTALLINITY_NONE : PyValue := ⟨0, 0⟩

/-- One entry of ds.samples('all') as inspected by stats. -/
structure BandGapEntry where
  temperature : Option ℤ
  crystallinity : PyValue
deriving DecidableEq, Repr

/-- A band-gaps dataset as used by stats: samples_all models the list
returned by ds.samples('all'). -/
structure BandGapsDataset where
  samples_all : List BandGapEntry
deriving DecidableEq, Repr

/-- The stats helper of the band-gaps notebook.  It takes the dataset
argument ds; the global variable bg1 that its body reads is passed
explicitly.  Returns the tuple (n, ntp, ncr, ntc) of the four counts it
prints: n is the length of bg1.samples('all'), the three sub-counts are
computed from ds. -/
def stats (ds bg1 : BandGapsDataset) : ℕ × ℕ × ℕ × ℕ :=
  let data := ds.samples_all
  let n := bg1.samples_all.length
  let ntp := data.countP (fun e => e.temperature.isSome)
  let ncr := data.countP (fun e => e.crystallinity.val != CRYSTALLINITY_NONE.val)
  let ntc := data.countP (fun e =>
    e.temperature.isSome && (e.crystallinity.oid != CRYSTALLINITY_NONE.oid))
  (n, ntp, ncr, ntc)

/-- A dataset whose single entry has temperature information and a
crystallinity object that is equal in value to CRYSTALLINITY_NONE but is
a distinct object (a non-identical alias, as Python permits). -/
def aliasedCrystallinityDataset : BandGapsDataset :=
  ⟨[⟨some 300, ⟨1, 0⟩⟩]⟩

/-- A dataset on which value equality to CRYSTALLINITY_NONE implies
identity to it: one entry with the sentinel itself, one with temperature
and a crystallinity differing from the sentinel in value. -/
def wellAliasedDataset : BandGapsDataset :=
  ⟨[⟨none, CRYSTALLINITY_NONE⟩, ⟨some 300, ⟨2, 5⟩⟩, ⟨some 20, ⟨3, 7⟩⟩]⟩

/-! ## Models of external smlb library components

The smlb library itself is not part of this snapshot; the spec describes
the observable contract of its components.  The following definitions are
built from those spec sentences. -/

/-- Modelled from the spec: the LearningCurveRegression workflow class is
external to this snapshot.  Spec section 7: "the library is reported to
detect overlap between training and validation sample sets and to surface
this as a warning/failure rather than silently producing a biased score".
A workflow holds the drawn training sample sets and the validation sample
set. -/
structure LCRWorkflow (α : Type) where
  training : List (List α)
  validation : List α

/-- Modelled from the spec: whether some drawn training sample set
overlaps the validation sample set. -/
def LCRWorkflow.overlapDetected {α : Type} [DecidableEq α]
    (wf : LCRWorkflow α) : Bool :=
  wf.training.any (fun ts => ts.any (fun s => decide (s ∈ wf.validation)))

/-- Modelled from the spec: LearningCurveRegression.run() surfaces
training/validation overlap as a failure instead of producing a score; on
overlap-free input it succeeds. -/
def LCRWorkflow.run {α : Type} [DecidableEq α]
    (wf : LCRWorkflow α) : Except String Unit :=
  if wf.overlapDetected then
    Except.error "overlap between training and validation sample sets"
  else
    Except.ok ()

/-- A workflow in which the (sub-)grid training set is contained in the
grid validation set, as in the n=10 training grid inside the 7^5
validation grid of the friedman1979 notebook. -/
def overlappingGridWorkflow : LCRWorkflow ℕ :=
  { training := [[0, 2, 4, 6]], validation := [0, 1, 2, 3, 4, 5, 6] }

/-- Modelled from the spec: one entry of the per-learner asymptotic fits,
a dictionary holding the fit parameters under the keys "offset" and
"slope". -/
def asymptoticFitEntry (fit : ℚ × ℚ) : List (String × ℚ) :=
  [("offset", fit.1), ("slope", fit.2)]

/-- Modelled from the spec: LearningCurvePlot is external; it "exposes an
`auxiliary` result containing per-learner asymptotic fit parameters
(`offset`, `slope`) after `run()`".  The auxiliary result is a
string-keyed dictionary holding, under "asymptotic_fits", one entry per
learner. -/
def learningCurvePlotAuxiliary {L : Type} (learners : List L)
    (fit : L → ℚ × ℚ) : List (String × List (List (String × ℚ))) :=
  [("asymptotic_fits", learners.map (fun l => asymptoticFitEntry (fit l)))]

/-- Modelled from the spec: running a workflow whose evaluation sinks
include a LearningCurvePlot; on success the plot's auxiliary result holds
the asymptotic fit computed for each learner, on training/validation
overlap the run fails as in LCRWorkflow.run. -/
def LCRWorkflow.runWithPlot {α L : Type} [DecidableEq α]
    (wf : LCRWorkflow α) (learners : List L) (fit : L → ℚ × ℚ) :
    Except String (List (String × List (List (String × ℚ)))) :=
  if wf.overlapDetected then
    Except.error "overlap between training and validation sample sets"
  else
    Except.ok (learningCurvePlotAuxiliary learners fit)

/-- A workflow with no overlap between training and validation samples. -/
def disjointWorkflow : LCRWorkflow ℕ :=
  { training := [[7, 8], [9]], validation := [0, 1, 2] }

/-- Modelled from the spec: dataset classes are external; they "expose
`num_samples`, `samples()`, `labels()`".  A dataset holds a list of
sample-label entries; samples() and labels() are its two projections. -/
structure DatasetModel (α β : Type) where
  entries : List (α × β)

/-- Modelled from the spec: the samples() accessor. -/
def DatasetModel.samples {α β : Type} (d : DatasetModel α β) : List α :=
  d.entries.map Prod.fst

/-- Modelled from the spec: the labels() accessor. -/
def DatasetModel.labels {α β : Type} (d : DatasetModel α β) : List β :=
  d.entries.map Prod.snd

/-- Modelled from the spec: the num_samples accessor. -/
def DatasetModel.num_samples {α β : Type} (d : DatasetModel α β) : ℕ :=
  d.entries.length

/-! ## The calc_split_sizes helper of the learning-curve panel notebook

The panel notebook defines

    validation_fraction, num_train_min, num_training_sets, max_size = 0.2, 10, 6, 500

    def calc_split_sizes(data):
        num_samples = data if isinstance(data, int) else data.num_samples
        num_validation = int(np.floor(validation_fraction * num_samples))
        num_validation = min(num_validation, max_size)
        num_train_max = np.floor((1 - validation_fraction) * num_samples)
        num_train_max = min(num_train_max, max_size)
        num_training = np.logspace(np.log10(num_train_min),
            np.log10(num_train_max), num_training_sets, dtype=int)
        return num_validation, num_training
-/

/-- validation_fraction = 0.2 in the panel notebook. -/
def validation_fraction : ℚ := 2 / 10

/-- num_train_min = 10 in the panel notebook. -/
def num_train_min : ℕ := 10

/-- num_training_sets = 6 in the panel notebook. -/
def num_training_sets : ℕ := 6

/-- max_size = 500 in the panel notebook. -/
def max_size : ℕ := 500

/-- The argument of calc_split_sizes: either a dataset (of which only
num_samples is read) or an integer number of samples, mirroring the
isinstance(data, int) branch. -/
inductive SplitArg where
  | dataset (num_samples : ℕ)
  | count (n : ℕ)
deriving DecidableEq, Repr

/-- num_samples = data if isinstance(data, int) else data.num_samples. -/
def SplitArg.num_samples : SplitArg → ℕ
  | SplitArg.dataset n => n
  | SplitArg.count n => n

/-- np.logspace(a, b, num): num points 10^e with exponents e equally
spaced from a to b inclusive. -/
noncomputable def logspace (a b : ℝ) (num : ℕ) : List ℝ :=
  (List.range num).map
    (fun i : ℕ => (10 : ℝ) ^ (a + (i : ℝ) * ((b - a) / ((num : ℝ) - 1))))

/-- The calc_split_sizes helper of the panel notebook.  int(np.floor(x))
for the nonnegative x arising here is Nat.floor; np.floor followed by
min with the integer max_size is the integer min of the floor and
max_size; the logspace values are positive, so the dtype=int truncation
toward zero is Int.floor. -/
noncomputable def calc_split_sizes (data : SplitArg) : ℕ × List ℤ :=
  let num_samples := data.num_samples
  let num_validation := min (Nat.floor (validation_fraction * (num_samples : ℚ))) max_size
  let num_train_max : ℤ := min ⌊(1 - validation_fraction) * (num_samples : ℚ)⌋ (max_size : ℤ)
  let num_training :=
    (logspace (Real.logb 10 (num_train_min : ℝ)) (Real.logb 10 (num_train_max : ℝ))
      num_training_sets).map (fun v => ⌊v⌋)
  (num_validation, num_training)

/-! ## Theorems -/

/-- C3 counterexample: the first LearningCurveRegression construction in
the friedman1979 notebook supplies neither the features nor the
evaluation sinks, refuting the claim that every construction supplies
data, features, training samplers, validation sampler, learners and
evaluation sinks. -/
theorem friedman_first_workflow_omits_features_and_evaluations :
    friedmanWorkflowCall1 ∈ lcrConstructions ∧
    friedmanWorkflowCall1.kwargs.contains "features" = false ∧
    friedmanWorkflowCall1.kwargs.contains "evaluations" = false := by
  decide

/-- C3 (amended): every construction of the LearningCurveRegression
workflow in the notebooks supplies the data, the training samplers, the
validation sampler and the learners, and each constructed workflow's
run() method is invoked; the features and the evaluation sinks are
supplied in some constructions but omitted in the friedman1979 notebook
(features in both of its constructions, evaluation sinks in its first). -/
theorem lcr_constructions_supply_core_arguments_and_run :
    lcrConstructions.all (fun c =>
      c.kwargs.contains "data" && c.kwargs.contains "training" &&
      c.kwargs.contains "validation" && c.kwargs.contains "learners" &&
      c.runInvoked) = true := by
  decide

/-- C4 counterexample: the lolo random-forest learner in the panel
notebook is constructed as RandomForestRegressionLolo(), with no
hyperparameters and no reproducibility seed (the source comments
"currently no support for passing prng seed"), refuting the claim that
every learner instance is constructed with hyperparameters and a
reproducibility seed. -/
theorem lolo_learner_constructed_without_seed :
    panelLearnerLolo ∈ learnerConstructions ∧
    panelLearnerLolo.kwargs.contains "random_state" = false ∧
    panelLearnerLolo.kwargs = [] := by
  decide

/-- C4 (amended): every learner instance in the notebooks other than
RandomForestRegressionLolo is constructed with a reproducibility seed
(random_state), some additionally with explicit hyperparameters; the lolo
learner is constructed with no arguments at all; and every learner
instance is passed to a workflow, which uses it to fit and predict. -/
theorem learners_seeded_except_lolo_and_used :
    learnerConstructions.all (fun c =>
      (c.callee == "RandomForestRegressionLolo" ||
        c.kwargs.contains "random_state") &&
      c.usedInWorkflow) = true := by
  decide

/-- C5: every sampler instance constructed in the notebooks
(RandomSubsetSampler, GridSampler, RandomVectorSampler) is constructed
with a size argument and a reproducibility seed rng, and is used only to
draw training or validation subsets of samples. -/
theorem samplers_have_size_rng_and_split_role :
    samplerConstructions.all (fun c =>
      c.kwargs.contains "size" && c.kwargs.contains "rng" &&
      (c.role == "training" || c.role == "validation")) = true := by
  decide

/-- C7 counterexample: the Friedman1979Data construction in the
friedman1979 notebook supplies only dimensions and none of the filter_,
labelf, samplef keyword functions, refuting the claim that every dataset
instance is constructed with filter/label/sample-extraction keyword
functions. -/
theorem friedman_dataset_constructed_without_keyword_functions :
    friedmanDatasetCall ∈ datasetConstructions ∧
    friedmanDatasetCall.kwargs.contains "filter_" = false ∧
    friedmanDatasetCall.kwargs.contains "labelf" = false ∧
    friedmanDatasetCall.kwargs.contains "samplef" = false := by
  decide

/-- C7 (amended): dataset instances in the notebooks are constructed with
keyword arguments, among which the filter/label/sample-extraction
functions filter_, labelf, samplef appear in some constructions but not
in all of them; every dataset exposes num_samples, samples() and
labels(), and samples() and labels() yield sequences of equal length
(both equal to num_samples) whose pairwise zip recovers the dataset's
sample-label entries. -/
theorem datasets_keyword_functions_and_aligned_samples_labels :
    (datasetConstructions.any (fun c =>
      c.kwargs.contains "filter_" || c.kwargs.contains "labelf" ||
      c.kwargs.contains "samplef") = true) ∧
    ∀ (α β : Type) (d : DatasetModel α β),
      d.samples.length = d.labels.length ∧
      d.samples.length = d.num_samples ∧
      d.samples.zip d.labels = d.entries := by
  refine ⟨by decide, ?_⟩
  intro α β d
  refine ⟨?_, ?_, ?_⟩
  · simp [DatasetModel.samples, DatasetModel.labels]
  · simp [DatasetModel.samples, DatasetModel.num_samples]
  · simp [DatasetModel.samples, DatasetModel.labels, List.zip_map']

/-- C9: the stats helper computes the printed total sample count n, and
therefore the denominator of all three printed percentages, from the
global dataset bg1 regardless of which dataset was passed as ds, while
the three sub-counts ntp, ncr, ntc are computed from the argument ds
regardless of bg1. -/
theorem stats_total_from_global_bg1 :
    ∀ ds ds2 bg bg2 : BandGapsDataset,
      (stats ds bg).1 = bg.samples_all.length ∧
      (stats ds bg).1 = (stats ds2 bg).1 ∧
      (stats ds bg).2 = (stats ds bg2).2 := by
  intro ds ds2 bg bg2
  exact ⟨rfl, rfl, rfl⟩

/-- C10 counterexample: on a dataset whose single entry has temperature
information and a crystallinity object equal in value to
CRYSTALLINITY_NONE but not identical to it, the identity test (is not)
counts the entry for ntc while the equality test (!=) excludes it from
ncr, so ntc = 1 and ncr = 0: the claimed inequality ntc ≤ ncr fails. -/
theorem ntc_exceeds_ncr_on_aliased_crystallinity :
    ¬ ((stats aliasedCrystallinityDataset aliasedCrystallinityDataset).2.2.2 ≤
       (stats aliasedCrystallinityDataset aliasedCrystallinityDataset).2.2.1) := by
  decide

/-- C10 (amended): for every dataset argument ds of stats, ntc ≤ ntp
holds unconditionally; and ntc ≤ ncr holds provided every crystallinity
value of ds that is equal in value to CRYSTALLINITY_NONE is also
identical to it (no non-identical aliases of the sentinel) — the
side condition forced by the code testing identity (is not) for ntc but
equality (!=) for ncr. -/
theorem ntc_le_ntp_and_ncr_without_aliases (ds bg : BandGapsDataset) :
    (stats ds bg).2.2.2 ≤ (stats ds bg).2.1 ∧
    ((∀ e ∈ ds.samples_all,
        e.crystallinity.val = CRYSTALLINITY_NONE.val →
        e.crystallinity.oid = CRYSTALLINITY_NONE.oid) →
      (stats ds bg).2.2.2 ≤ (stats ds bg).2.2.1) := by
  constructor
  · apply List.countP_mono_left
    intro e _ h
    simp only [Bool.and_eq_true] at h
    exact h.1
  · intro halias
    apply List.countP_mono_left
    intro e he h
    simp only [Bool.and_eq_true, bne_iff_ne, ne_eq] at h
    simp only [bne_iff_ne, ne_eq]
    intro hval
    exact h.2 (halias e he hval)

/-- Witness for the amended C10 at a concrete dataset satisfying the
no-alias side condition. -/
theorem ntc_le_ntp_and_ncr_witness :
    (stats wellAliasedDataset wellAliasedDataset).2.2.2 ≤
      (stats wellAliasedDataset wellAliasedDataset).2.1 ∧
    (stats wellAliasedDataset wellAliasedDataset).2.2.2 ≤
      (stats wellAliasedDataset wellAliasedDataset).2.2.1 :=
  ⟨(ntc_le_ntp_and_ncr_without_aliases wellAliasedDataset wellAliasedDataset).1,
   (ntc_le_ntp_and_ncr_without_aliases wellAliasedDataset wellAliasedDataset).2
     (by decide)⟩

/-- C1: whenever a drawn training sample set overlaps the validation
sample set, LearningCurveRegression.run() detects the overlap and
surfaces it as a failure instead of silently producing a (possibly
arbitrarily biased) performance score.  Proved against the model of the
external library's safeguard built from the spec. -/
theorem run_fails_on_training_validation_overlap
    {α : Type} [DecidableEq α] (wf : LCRWorkflow α)
    (h : ∃ ts ∈ wf.training, ∃ s ∈ ts, s ∈ wf.validation) :
    wf.run = Except.error "overlap between training and validation sample sets" := by
  have hov : wf.overlapDetected = true := by
    obtain ⟨ts, hts, s, hs, hv⟩ := h
    simp only [LCRWorkflow.overlapDetected, List.any_eq_true, decide_eq_true_eq]
    exact ⟨ts, hts, s, hs, hv⟩
  simp [LCRWorkflow.run, hov]

/-- Witness for C1: a workflow whose training set is a sub-grid of the
grid validation set, as in the n=10 training grid inside the 7^5
validation grid of the friedman1979 notebook. -/
theorem run_fails_on_overlap_witness :
    (∃ ts ∈ overlappingGridWorkflow.training, ∃ s ∈ ts,
        s ∈ overlappingGridWorkflow.validation) ∧
    overlappingGridWorkflow.run =
      Except.error "overlap between training and validation sample sets" :=
  ⟨by decide,
   run_fails_on_training_validation_overlap overlappingGridWorkflow (by decide)⟩

/-- C6: for a workflow whose evaluation sinks include a
LearningCurvePlot, when run() returns successfully the plot's auxiliary
result contains, under the key "asymptotic_fits", one entry per learner,
and each entry contains the asymptotic fit parameters under the keys
"offset" and "slope".  Proved against the model of the external plotting
class built from the spec. -/
theorem plot_auxiliary_has_per_learner_fits
    {α L : Type} [DecidableEq α] (wf : LCRWorkflow α)
    (learners : List L) (fit : L → ℚ × ℚ)
    (aux : List (String × List (List (String × ℚ))))
    (h : wf.runWithPlot learners fit = Except.ok aux) :
    ∃ fits, aux.lookup "asymptotic_fits" = some fits ∧
      fits.length = learners.length ∧
      ∀ entry ∈ fits, (entry.lookup "offset").isSome ∧
        (entry.lookup "slope").isSome := by
  by_cases hov : wf.overlapDetected = true
  · rw [LCRWorkflow.runWithPlot, if_pos hov] at h
    exact absurd h (by simp)
  · rw [LCRWorkflow.runWithPlot, if_neg hov] at h
    simp only [Except.ok.injEq] at h
    subst h
    refine ⟨learners.map (fun l => asymptoticFitEntry (fit l)), ?_, ?_, ?_⟩
    · simp [learningCurvePlotAuxiliary, List.lookup]
    · simp
    · intro entry hentry
      simp only [List.mem_map] at hentry
      obtain ⟨l, _, hl⟩ := hentry
      subst hl
      constructor
      · simp [asymptoticFitEntry, List.lookup]
      · simp [asymptoticFitEntry, List.lookup]

/-- Witness for C6 at a concrete overlap-free workflow with two
learners. -/
theorem plot_auxiliary_witness :
    ∃ fits,
      ((learningCurvePlotAuxiliary ["rf", "gpr"]
          (fun _ => ((1 : ℚ), (2 : ℚ)))).lookup "asymptotic_fits" = some fits) ∧
      fits.length = (["rf", "gpr"] : List String).length ∧
      ∀ entry ∈ fits, (entry.lookup "offset").isSome ∧
        (entry.lookup "slope").isSome :=
  plot_auxiliary_has_per_learner_fits disjointWorkflow ["rf", "gpr"]
    (fun _ => ((1 : ℚ), (2 : ℚ)))
    (learningCurvePlotAuxiliary ["rf", "gpr"] (fun _ => ((1 : ℚ), (2 : ℚ)))) rfl

/-- C8: for every argument (a dataset or an integer number of samples n),
calc_split_sizes returns a validation size equal to min(floor(0.2*n), 500)
— hence never exceeding 500 and never exceeding one fifth of the samples —
together with a list of exactly 6 integer training-set sizes, each of
which is at most 500.  The hypothesis 2 ≤ n excludes the degenerate
inputs n < 2 on which the original code evaluates np.log10(0). -/
theorem calc_split_sizes_spec (data : SplitArg) (h : 2 ≤ data.num_samples) :
    (calc_split_sizes data).1 = min (data.num_samples / 5) 500 ∧
    (calc_split_sizes data).1 ≤ 500 ∧
    5 * (calc_split_sizes data).1 ≤ data.num_samples ∧
    (calc_split_sizes data).2.length = 6 ∧
    ∀ x ∈ (calc_split_sizes data).2, x ≤ 500 := by
  set n := data.num_samples with hn
  have hval : (calc_split_sizes data).1 = min (n / 5) 500 := by
    have h5 : validation_fraction * (n : ℚ) = (n : ℚ) / ((5 : ℕ) : ℚ) := by
      simp only [validation_fraction]
      push_cast
      ring
    show min (Nat.floor (validation_fraction * (n : ℚ))) max_size = min (n / 5) 500
    rw [h5, Nat.floor_div_nat, Nat.floor_natCast, max_size]
  have h2 : (calc_split_sizes data).2 =
      (logspace (Real.logb 10 (num_train_min : ℝ))
        (Real.logb 10
          ((min ⌊(1 - validation_fraction) * (n : ℚ)⌋ (max_size : ℤ) : ℤ) : ℝ))
        num_training_sets).map (fun v => ⌊v⌋) := rfl
  refine ⟨hval, ?_, ?_, ?_, ?_⟩
  · rw [hval]
    exact le_trans (min_le_right _ _) le_rfl
  · rw [hval]
    calc 5 * min (n / 5) 500 ≤ 5 * (n / 5) :=
          Nat.mul_le_mul_left 5 (min_le_left _ _)
      _ ≤ n := by omega
  · rw [h2, List.length_map]
    simp only [logspace, List.length_map, List.length_range]
    rfl
  · intro x hx
    rw [h2] at hx
    obtain ⟨v, hv, rfl⟩ := List.mem_map.mp hx
    simp only [logspace] at hv
    obtain ⟨i, hir, rfl⟩ := List.mem_map.mp hv
    have hi : i < num_training_sets := List.mem_range.mp hir
    set T : ℤ := min ⌊(1 - validation_fraction) * (n : ℚ)⌋ (max_size : ℤ) with hTdef
    have hT1 : 1 ≤ T := by
      rw [hTdef]
      apply le_min
      · rw [Int.le_floor]
        have hnq : (2 : ℚ) ≤ (n : ℚ) := by exact_mod_cast h
        simp only [validation_fraction]
        push_cast
        linarith
      · norm_num [max_size]
    have hT500 : T ≤ 500 := by
      rw [hTdef]
      exact le_trans (min_le_right _ _) (by norm_num [max_size])
    have hTposR : (0 : ℝ) < ((T : ℤ) : ℝ) := by
      have hTpos : (0 : ℤ) < T := lt_of_lt_of_le zero_lt_one hT1
      exact_mod_cast hTpos
    have hT500R : ((T : ℤ) : ℝ) ≤ 500 := by exact_mod_cast hT500
    have ha : Real.logb 10 ((num_train_min : ℕ) : ℝ) = 1 := by
      have h10 : ((num_train_min : ℕ) : ℝ) = 10 := by norm_num [num_train_min]
      rw [h10]
      exact Real.logb_self_eq_one (by norm_num)
    set b := Real.logb 10 ((T : ℤ) : ℝ) with hbdef
    rw [ha]
    have hnum : ((num_training_sets : ℕ) : ℝ) - 1 = 5 := by
      norm_num [num_training_sets]
    rw [hnum]
    have hi5 : (i : ℝ) ≤ 5 := by
      have hii : i ≤ 5 := by
        have h6 : num_training_sets = 6 := rfl
        omega
      exact_mod_cast hii
    have hi0 : (0 : ℝ) ≤ (i : ℝ) := Nat.cast_nonneg i
    have hvle : (10 : ℝ) ^ (1 + (i : ℝ) * ((b - 1) / 5)) ≤ 500 := by
      rcases le_or_lt 1 b with hb | hb
      · have he : 1 + (i : ℝ) * ((b - 1) / 5) ≤ b := by nlinarith
        calc (10 : ℝ) ^ (1 + (i : ℝ) * ((b - 1) / 5))
            ≤ (10 : ℝ) ^ b := (Real.rpow_le_rpow_left_iff (by norm_num)).mpr he
          _ = ((T : ℤ) : ℝ) := by
              rw [hbdef]
              exact Real.rpow_logb (by norm_num) (by norm_num) hTposR
          _ ≤ 500 := hT500R
      · have he : 1 + (i : ℝ) * ((b - 1) / 5) ≤ 1 := by nlinarith
        calc (10 : ℝ) ^ (1 + (i : ℝ) * ((b - 1) / 5))
            ≤ (10 : ℝ) ^ (1 : ℝ) := (Real.rpow_le_rpow_left_iff (by norm_num)).mpr he
          _ = 10 := Real.rpow_one 10
          _ ≤ 500 := by norm_num
    rw [Int.floor_le_iff]
    push_cast
    linarith

/-- Witness for C8 at the concrete argument 650, as used by the panel
notebook in split_sizes for the synthetic datasets. -/
theorem calc_split_sizes_spec_witness :
    (calc_split_sizes (SplitArg.count 650)).1 = min (650 / 5) 500 ∧
    (calc_split_sizes (SplitArg.count 650)).1 ≤ 500 ∧
    5 * (calc_split_sizes (SplitArg.count 650)).1 ≤ 650 ∧
    (calc_split_sizes (SplitArg.count 650)).2.length = 6 ∧
    ∀ x ∈ (calc_split_sizes (SplitArg.count 650)).2, x ≤ 500 :=
  calc_split_sizes_spec (SplitArg.count 650) (by decide)

end Smlb
